import Mathlib

/-!
Verification development for the booking-management and reporting backend
(cc-crm-backend).  The JavaScript source is shallowly embedded: spreadsheet
rows are lists of strings, prices are rationals, instants on the time line
are integers, and the JS builtins `parseFloat` / `parseInt` are modelled for
the decimal fragment the code relies on.  The `Date` constructor and its
field accessors are passed in as parameters wherever a function of the
repository calls them, so that every piece of control flow written in the
repository itself is reproduced exactly.
-/

/-- Structural model of JS `toLowerCase` on the ASCII fragment this data
uses (character-wise lower-casing). -/
def lowerStr (s : String) : String :=
  ⟨s.data.map Char.toLower⟩

/-- Structural model of JS `trim`: drop whitespace from both ends. -/
def trimStr (s : String) : String :=
  ⟨((s.data.dropWhile Char.isWhitespace).reverse.dropWhile Char.isWhitespace).reverse⟩

/-- Split a character list on every occurrence of a separator, keeping empty
segments, as JS `split` and `String.splitOn` do. -/
def splitChar (sep : Char) : List Char → List (List Char)
  | [] => [[]]
  | c :: t =>
      let r := splitChar sep t
      if c = sep then [] :: r
      else
        match r with
        | h :: t2 => (c :: h) :: t2
        | [] => [[c]]

/-- JS truthiness-based defaulting for strings: `a || b`. -/
def jsOr (a b : String) : String :=
  if a = "" then b else a

/-- JS `str.replace(/\D/g, "")`: keep only ASCII digits. -/
def digitsOnly (s : String) : String :=
  ⟨s.data.filter Char.isDigit⟩

/-- Keep only digits and decimal points, i.e. the digits-and-decimal-point-only
substring of a raw cell (`str.replace(/[^0-9.]/g, "")`). -/
def digitsDotsOnly (s : String) : String :=
  ⟨s.data.filter (fun c => c.isDigit || c == '.')⟩

/-- Remove the first occurrence of a character, as JS
`str.replace("c", "")` does for a one-character pattern. -/
def removeFirstChar (c : Char) : List Char → List Char
  | [] => []
  | x :: xs => if x = c then xs else x :: removeFirstChar c xs

/-- Remove every comma (`str.replace(/,/g, "")`). -/
def removeCommas (l : List Char) : List Char :=
  l.filter (fun c => c ≠ ',')

/-- Does the pattern occur at the start of the text? -/
def charsHasInit : List Char → List Char → Bool
  | [], _ => true
  | _ :: _, [] => false
  | p :: ps, t :: ts => p = t && charsHasInit ps ts

/-- Does the pattern occur anywhere in the text? -/
def charsHasSub (pat : List Char) : List Char → Bool
  | [] => pat.isEmpty
  | t :: ts => charsHasInit pat (t :: ts) || charsHasSub pat ts

/-- JS `s.includes(pat)`. -/
def strIncludes (s pat : String) : Bool :=
  charsHasSub pat.data s.data

/-- Numeric value of a run of decimal digit characters. -/
def natOfDigits (l : List Char) : ℕ :=
  l.foldl (fun a c => a * 10 + (c.toNat - 48)) 0

/-- Model of JS `parseInt(s)` (radix 10): skip leading whitespace, optional
sign, then a non-empty run of digits; `none` models `NaN`. -/
def jsParseInt (s : String) : Option ℤ :=
  let cs := s.data.dropWhile Char.isWhitespace
  let signed : ℤ × List Char :=
    match cs with
    | '-' :: t => (-1, t)
    | '+' :: t => (1, t)
    | _ => (1, cs)
  let ds := signed.2.takeWhile Char.isDigit
  if ds.isEmpty then none else some (signed.1 * (natOfDigits ds : ℤ))

/-- Model of JS `parseFloat(s)` on the decimal fragment this code feeds it:
skip leading whitespace, optional sign, an integer part and an optional
fractional part (at least one digit overall), ignoring any trailing
characters; `none` models `NaN`. -/
def jsParseFloat (s : String) : Option ℚ :=
  let cs := s.data.dropWhile Char.isWhitespace
  let signed : ℚ × List Char :=
    match cs with
    | '-' :: t => (-1, t)
    | '+' :: t => (1, t)
    | _ => (1, cs)
  let ds := signed.2.takeWhile Char.isDigit
  let rest := signed.2.dropWhile Char.isDigit
  let fs :=
    match rest with
    | '.' :: t => t.takeWhile Char.isDigit
    | _ => []
  if ds.isEmpty ∧ fs.isEmpty then none
  else some (signed.1 * ((natOfDigits ds : ℚ) + (natOfDigits fs : ℚ) / (10 : ℚ) ^ fs.length))

/-- Embedding of `parsePrice` from `src/utils/dataParser.js`: an empty cell
yields 0; otherwise the first peso sign and all commas are removed and the
remainder is handed to `parseFloat`, with `NaN` collapsed to 0. -/
def parsePrice (s : String) : ℚ :=
  if s = "" then 0
  else
    let cleaned : String := ⟨removeCommas (removeFirstChar '₱' s.data)⟩
    (jsParseFloat cleaned).getD 0

/-- Month-name table of `parseDateString` (`jan` ↦ 0 … `dec` ↦ 11). -/
def monthIndex (s : String) : Option ℤ :=
  if s = "jan" then some 0
  else if s = "feb" then some 1
  else if s = "mar" then some 2
  else if s = "apr" then some 3
  else if s = "may" then some 4
  else if s = "jun" then some 5
  else if s = "jul" then some 6
  else if s = "aug" then some 7
  else if s = "sep" then some 8
  else if s = "oct" then some 9
  else if s = "nov" then some 10
  else if s = "dec" then some 11
  else none

/-- A digit run of bounded length, as matched by `\d{lo,hi}`. -/
def digitRun (lo hi : ℕ) (s : String) : Bool :=
  decide (lo ≤ s.length) && decide (s.length ≤ hi) && s.data.all Char.isDigit

/-- The anchored regex `^(\d{1,2})\/(\d{1,2})\/(\d{4})$` of `parseDateString`,
returning (month, day, year) on a match. -/
def slashParts (s : String) : Option (ℤ × ℤ × ℤ) :=
  match (splitChar '/' s.data).map (fun l => (⟨l⟩ : String)) with
  | [a, b, c] =>
      if digitRun 1 2 a && digitRun 1 2 b && digitRun 4 4 c then
        some ((natOfDigits a.data : ℤ), (natOfDigits b.data : ℤ), (natOfDigits c.data : ℤ))
      else none
  | _ => none

/-- The abbreviated-month branch of `parseDateString`: lower-case the string,
split on single spaces, and require a known month name followed by a truthy
day and a truthy year.  Returns (year, month index, day). -/
def monthFormat (s : String) : Option (ℤ × ℤ × ℤ) :=
  match (splitChar ' ' (lowerStr s).data).map (fun l => (⟨l⟩ : String)) with
  | p0 :: p1 :: p2 :: _ =>
      match monthIndex p0, jsParseInt p1, jsParseInt p2 with
      | some mi, some d, some y =>
          if d ≠ 0 ∧ y ≠ 0 then some (y, mi, d) else none
      | _, _, _ => none
  | _ => none

/-- Embedding of `parseDateString` from `src/utils/dataParser.js`.  `mk`
models the `new Date(year, month, day)` constructor and `fb` models the
generic `new Date(string)` fallback, whose invalid-date result (`NaN`
`getTime`) the source collapses to `null`; both produce instants on an
abstract integer time line. -/
def parseDateString (mk : ℤ → ℤ → ℤ → ℤ) (fb : String → Option ℤ) (s : String) : Option ℤ :=
  if s = "" then none
  else
    match slashParts s with
    | some (m, d, y) => some (mk y (m - 1) d)
    | none =>
        match monthFormat s with
        | some (y, mi, d) => some (mk y mi d)
        | none => fb s

/-- Embedding of the local `parseDateString` of the booking controller
(`src/unnamed/part_001`, lines 3191-3212).  Its fallback returns the raw
`new Date(string)` object without an `isNaN` check, so the result type
distinguishes `null` (outer `none`) from a `Date` object that may be an
invalid date (inner `none`). -/
def parseDateStringLocal (mk : ℤ → ℤ → ℤ → ℤ) (fb : String → Option ℤ) (s : String) :
    Option (Option ℤ) :=
  if s = "" then none
  else
    match monthFormat s with
    | some (y, mi, d) => some (some (mk y mi d))
    | none => some (fb s)

/-- A spreadsheet row: an ordered list of cell strings. -/
def Row : Type := List String

instance : DecidableEq Row := by
  unfold Row
  infer_instance

/-- Cell access with the JS `row[i] || ""` convention for missing cells. -/
def cell (r : Row) (i : ℕ) : String :=
  List.getD r i ""

/-- Input quintuple-plus of `checkPromoHunter`. -/
structure Candidate where
  firstName : String
  lastName : String
  email : String
  phone : String
  socialMedia : String
  companionFirstName : String
  companionLastName : String
deriving DecidableEq

/-- Candidate-side normalizations computed at the top of `checkPromoHunter`. -/
def candFullName (c : Candidate) : String :=
  trimStr (lowerStr (c.firstName ++ " " ++ c.lastName))

/-- Normalized candidate email. -/
def candEmail (c : Candidate) : String :=
  trimStr (lowerStr c.email)

/-- Normalized candidate phone (digits only, then trimmed). -/
def candPhone (c : Candidate) : String :=
  trimStr (digitsOnly c.phone)

/-- Normalized candidate social-media handle. -/
def candSocial (c : Candidate) : String :=
  trimStr (lowerStr c.socialMedia)

/-- Normalized candidate companion full name; empty unless both companion
name parts are truthy. -/
def candCompanion (c : Candidate) : String :=
  if c.companionFirstName ≠ "" ∧ c.companionLastName ≠ "" then
    trimStr (lowerStr (c.companionFirstName ++ " " ++ c.companionLastName))
  else ""

/-- Historical-row normalization: full name of the recorded customer. -/
def rowFullName (r : Row) : String :=
  trimStr (trimStr (lowerStr (cell r 4)) ++ " " ++ trimStr (lowerStr (cell r 5)))

/-- Historical-row normalization: recorded email. -/
def rowEmail (r : Row) : String :=
  trimStr (lowerStr (cell r 16))

/-- Historical-row normalization: recorded phone, digits only. -/
def rowPhone (r : Row) : String :=
  trimStr (digitsOnly (cell r 14))

/-- Historical-row normalization: recorded social-media handle. -/
def rowSocial (r : Row) : String :=
  trimStr (lowerStr (cell r 15))

/-- Historical-row normalization: recorded companion full name; empty unless
both trimmed-lowered parts are truthy. -/
def rowCompanion (r : Row) : String :=
  if trimStr (lowerStr (cell r 20)) ≠ "" ∧ trimStr (lowerStr (cell r 21)) ≠ "" then
    trimStr (trimStr (lowerStr (cell r 20)) ++ " " ++ trimStr (lowerStr (cell r 21)))
  else ""

/-- One entry of the `matches` list collected by `checkPromoHunter`. -/
structure MatchEntry where
  rowNumber : ℕ
  reason : String
  source : String
  date : String
  branch : String
deriving DecidableEq

/-- The if/else-if chain of `checkPromoHunter` run against one historical
row: the first of the six predicates that fires determines the match reason
and matched-as tag; `none` when no predicate fires. -/
def matchReasonFor (c : Candidate) (r : Row) : Option (String × String) :=
  if rowFullName r ≠ "" ∧ candFullName c ≠ "" ∧ rowFullName r = candFullName c then
    some ("Customer Name Match", "customer")
  else if candEmail c ≠ "" ∧ rowEmail r ≠ "" ∧ rowEmail r = candEmail c then
    some ("Email Match", "customer")
  else if candPhone c ≠ "" ∧ rowPhone r ≠ "" ∧ rowPhone r = candPhone c then
    some ("Phone Match", "customer")
  else if candSocial c ≠ "" ∧ rowSocial r ≠ "" ∧ rowSocial r = candSocial c then
    some ("Social Media Match", "customer")
  else if candCompanion c ≠ "" ∧ rowCompanion r ≠ "" ∧ rowCompanion r = candCompanion c then
    some ("Previously Companion", "companion")
  else if candCompanion c ≠ "" ∧ rowFullName r ≠ "" ∧ rowFullName r = candCompanion c then
    some ("Companion Match (was customer)", "companion")
  else none

/-- The scan of `checkPromoHunter` over the data rows, collecting every
matching historical row in storage order, with 1-based sheet row numbers
starting at 2. -/
def collectMatches (c : Candidate) (dataRows : List Row) (firstRowNumber : ℕ) : List MatchEntry :=
  match dataRows with
  | [] => []
  | r :: rest =>
      let tail := collectMatches c rest (firstRowNumber + 1)
      match matchReasonFor c r with
      | some p => ⟨firstRowNumber, p.1, p.2, cell r 3, cell r 1⟩ :: tail
      | none => tail

/-- Result record of `checkPromoHunter`. -/
structure MatchResult where
  status : String
  matchReason : String
  matchedSource : String
  matchedRow : String
deriving DecidableEq

/-- Embedding of `checkPromoHunter` (`src/unnamed/part_001`): fewer than two
rows means a first-time customer; otherwise scan the data rows, force status
`Promo hunter` on any match, and report the details of the first match in
scan order only. -/
def checkPromoHunter (dbRows : List Row) (c : Candidate) : MatchResult :=
  if dbRows.length < 2 then ⟨"Scheduled", "", "", ""⟩
  else
    let found := collectMatches c (dbRows.drop 1) 2
    match found with
    | [] => ⟨"Scheduled", "", "", ""⟩
    | m :: _ =>
        ⟨"Promo hunter", m.reason, m.source ++ " (" ++ m.branch ++ ")",
          "Row " ++ toString m.rowNumber⟩

/-- Request payload of `createBooking` after Joi validation (all cells are
carried as the strings that end up in the sheet; `status` defaults through
`|| "Scheduled"` exactly as in the source). -/
structure BookingData where
  branch : String
  status : String
  firstName : String
  lastName : String
  age : String
  phone : String
  socialMedia : String
  email : String
  treatment : String
  area : String
  freebie : String
  paymentMode : String
  totalPrice : String
  gender : String
  companionFirstName : String
  companionLastName : String
  companionAge : String
  companionFreebie : String
  companionTreatment : String
  companionGender : String
  bookingDetails : String
  adInteracted : String
  agent : String
deriving DecidableEq

/-- Candidate handed to `checkPromoHunter` by `createBooking`. -/
def candidateOf (b : BookingData) : Candidate :=
  ⟨b.firstName, b.lastName, b.email, b.phone, b.socialMedia,
    b.companionFirstName, b.companionLastName⟩

/-- The `finalStatus` computation of `createBooking`: caller status (default
`Scheduled`) unless the duplicate matcher reported `Promo hunter`. -/
def finalStatusOf (b : BookingData) (ph : MatchResult) : String :=
  if ph.status = "Promo hunter" then "Promo hunter" else jsOr b.status "Scheduled"

/-- The 37-column Intake row appended by `createBooking`. -/
def intakeRow (b : BookingData) (ph : MatchResult)
    (bookingId timestamp formattedDate : String) : Row :=
  [timestamp,
   b.branch,
   b.branch,
   finalStatusOf b ph,
   b.firstName,
   b.lastName,
   b.age,
   b.phone,
   jsOr b.socialMedia "",
   jsOr b.email "",
   b.treatment,
   jsOr b.area "",
   jsOr b.freebie "",
   formattedDate,
   b.paymentMode,
   b.totalPrice,
   b.gender,
   jsOr b.companionFirstName "",
   jsOr b.companionLastName "",
   jsOr b.companionAge "",
   jsOr b.companionFreebie "",
   jsOr b.companionTreatment "",
   jsOr b.companionGender "",
   jsOr b.bookingDetails "",
   b.agent,
   lowerStr (jsOr b.email ""),
   digitsOnly b.phone,
   lowerStr (jsOr b.socialMedia ""),
   lowerStr (b.firstName ++ " " ++ b.lastName),
   lowerStr (trimStr ((jsOr b.companionFirstName "") ++ " " ++ (jsOr b.companionLastName ""))),
   ph.status,
   ph.matchReason,
   ph.matchedSource,
   ph.matchedRow,
   bookingId,
   "active",
   timestamp]

/-- The 44-column DB master row appended by `createBooking`. -/
def masterDbRow (b : BookingData) (ph : MatchResult)
    (bookingId timestamp formattedDate : String) : Row :=
  [timestamp,
   b.branch,
   jsOr b.status "Scheduled",
   formattedDate,
   b.firstName,
   b.lastName,
   b.age,
   b.gender,
   b.treatment,
   jsOr b.area "",
   jsOr b.freebie "",
   jsOr b.companionTreatment "",
   b.totalPrice,
   b.paymentMode,
   b.phone,
   jsOr b.socialMedia "",
   jsOr b.email "",
   b.agent,
   jsOr b.bookingDetails "",
   jsOr b.adInteracted "",
   jsOr b.companionFirstName "",
   jsOr b.companionLastName "",
   jsOr b.companionAge "",
   jsOr b.companionGender "",
   jsOr b.companionFreebie "",
   lowerStr b.email,
   digitsOnly b.phone,
   lowerStr (jsOr b.socialMedia ""),
   lowerStr (b.firstName ++ " " ++ b.lastName),
   lowerStr (trimStr ((jsOr b.companionFirstName "") ++ " " ++ (jsOr b.companionLastName ""))),
   ph.status,
   ph.matchReason,
   ph.matchedSource,
   ph.matchedRow,
   bookingId,
   "active",
   timestamp,
   "",
   "",
   timestamp,
   formattedDate,
   b.branch,
   finalStatusOf b ph,
   ""]

/-- The pair of rows persisted by `createBooking`, after running the
duplicate matcher over the current DB table. -/
def createBookingRows (history : List Row) (b : BookingData)
    (bookingId timestamp formattedDate : String) : Row × Row :=
  let ph := checkPromoHunter history (candidateOf b)
  (intakeRow b ph bookingId timestamp formattedDate,
   masterDbRow b ph bookingId timestamp formattedDate)

/-- Request payload of `updateBooking` (raw body, no validation): `status`
is `none` when the field is absent, mirroring `undefined`. -/
structure UpdateData where
  branch : String
  status : Option String
  firstName : String
  lastName : String
  age : String
  phone : String
  socialMedia : String
  email : String
  treatment : String
  area : String
  freebie : String
  paymentMode : String
  totalPrice : String
  gender : String
  companionFirstName : String
  companionLastName : String
  companionAge : String
  companionFreebie : String
  companionTreatment : String
  companionGender : String
  bookingDetails : String
  adInteracted : String
  agent : String
  dateTime : String
deriving DecidableEq

/-- JS truthiness of a possibly-absent string. -/
def optTruthy (o : Option String) : Bool :=
  match o with
  | some s => s ≠ ""
  | none => false

/-- JS `o || d` for a possibly-absent string. -/
def jsOrOpt (o : Option String) (d : String) : String :=
  match o with
  | some s => jsOr s d
  | none => d

/-- The cancellation-time computation of `updateBooking`: preserve
`existingRow[43]`, but overwrite it with the current timestamp whenever the
incoming status is (case-insensitively) exactly `cancelled`. -/
def updatedCancellationTime (existing43 : String) (status : Option String)
    (timestamp : String) : String :=
  if optTruthy status ∧ lowerStr (status.getD "") = "cancelled" then timestamp
  else jsOr existing43 ""

/-- Companion full-name normalization recomputed by `updateBooking`. -/
def updCompanionNorm (u : UpdateData) : String :=
  if trimStr u.companionFirstName ≠ "" ∧ trimStr u.companionLastName ≠ "" then
    trimStr (lowerStr (u.companionFirstName ++ " " ++ u.companionLastName))
  else ""

/-- The 44-column row written back by `updateBooking`: caller fields replace
the live columns, the normalization columns are recomputed, and the
duplicate-match result columns 30-33 are copied from the existing row. -/
def updatedDbRow (existingRow : Row) (u : UpdateData) (timestamp : String) : Row :=
  [timestamp,
   u.branch,
   jsOrOpt u.status "Scheduled",
   jsOr u.dateTime (jsOr (cell existingRow 3) ""),
   u.firstName,
   u.lastName,
   u.age,
   u.gender,
   u.treatment,
   jsOr u.area "",
   jsOr u.freebie "",
   jsOr u.companionTreatment "",
   u.totalPrice,
   u.paymentMode,
   u.phone,
   jsOr u.socialMedia "",
   jsOr u.email "",
   u.agent,
   jsOr u.bookingDetails "",
   jsOr u.adInteracted "",
   jsOr u.companionFirstName "",
   jsOr u.companionLastName "",
   jsOr u.companionAge "",
   jsOr u.companionGender "",
   jsOr u.companionFreebie "",
   lowerStr (jsOr u.email ""),
   digitsOnly (jsOr u.phone ""),
   lowerStr (jsOr u.socialMedia ""),
   trimStr (lowerStr ((jsOr u.firstName "") ++ " " ++ (jsOr u.lastName ""))),
   updCompanionNorm u,
   jsOr (cell existingRow 30) "",
   jsOr (cell existingRow 31) "",
   jsOr (cell existingRow 32) "",
   jsOr (cell existingRow 33) "",
   jsOr (cell existingRow 34) "",
   jsOr (cell existingRow 35) "active",
   jsOr (cell existingRow 36) "",
   jsOr (cell existingRow 37) "",
   jsOr (cell existingRow 38) "",
   jsOr (cell existingRow 39) "",
   jsOr (cell existingRow 40) "",
   u.branch,
   jsOrOpt u.status "Scheduled",
   updatedCancellationTime (cell existingRow 43) u.status timestamp]

/-- Per-branch counters of the daily report. -/
structure BranchStat where
  count : ℕ
  revenue : ℚ
deriving DecidableEq

/-- A daily-report section carrying overall counters and a per-branch map
(an insertion-ordered association list, as a JS object of string keys). -/
structure SectionStat where
  total : ℕ
  revenue : ℚ
  count : ℕ
  byBranch : List (String × BranchStat)
deriving DecidableEq

/-- Overall-only counters of the tomorrow-summary section. -/
structure TotStat where
  total : ℕ
  revenue : ℚ
  count : ℕ
deriving DecidableEq

/-- The whole `reports` object of `getDailyReports`. -/
structure DailyReports where
  otsBookings : SectionStat
  overallBookings : SectionStat
  bookedTomorrow : List (String × BranchStat)
  bookedNext7Days : List (String × BranchStat)
  cancellations : SectionStat
  overallBookingsTomorrow : TotStat
deriving DecidableEq

/-- Guarded per-branch bump: `if (byBranch[branch]) then count++, revenue += p`.
An absent key leaves the map unchanged, exactly as the truthiness guard does. -/
def bumpBB (l : List (String × BranchStat)) (b : String) (p : ℚ) :
    List (String × BranchStat) :=
  l.map (fun e => if e.1 = b then (e.1, ⟨e.2.count + 1, e.2.revenue + p⟩) else e)

/-- Overall bump of a counted section (count, revenue, total, per-branch). -/
def bumpSection (s : SectionStat) (b : String) (p : ℚ) : SectionStat :=
  ⟨s.total + 1, s.revenue + p, s.count + 1, bumpBB s.byBranch b p⟩

/-- Overall bump of the tomorrow-summary section. -/
def bumpTot (t : TotStat) (p : ℚ) : TotStat :=
  ⟨t.total + 1, t.revenue + p, t.count + 1⟩

/-- The hard-coded branch list of `getDailyReports`. -/
def dailyBranches : List String :=
  ["STA LUCIA", "FELIZ", "ESTANCIA", "Spa", "Clinic", "Lab",
   "Dermatology", "Wellness", "Med Spa", "Aesthetic", "Hydro",
   "Hair Care", "Anti-Aging", "Mother Care", "Other",
   "AI SKIN", "CENTRIS", "DNA MANILA", "GENEVA", "GLORIETTA", "HERA",
   "LIONESSE", "LUMIA", "PARIS", "SM NORTH", "VENICE"]

/-- Request-time environment of `getDailyReports`: the local calendar day of
the request, the ISO-timestamp day extractor (`getDateFromTimestamp`) and the
booking-date parser (`parseBookingDate`), both day-truncated; days live on an
abstract integer day line, so tomorrow is `today + 1`. -/
structure DailyEnv where
  today : ℤ
  parseTS : String → Option ℤ
  parseBD : String → Option ℤ

/-- Window primitive: the calendar day equals today. -/
def isToday (today : ℤ) (d : Option ℤ) : Bool :=
  d.any (fun x => x == today)

/-- Window primitive: the calendar day equals tomorrow. -/
def isTomorrow (today : ℤ) (d : Option ℤ) : Bool :=
  d.any (fun x => x == today + 1)

/-- Window primitive `isNext7Days` (the strict variant used for the OVERALL
section): after today, up to and including `today + 7`. -/
def isNext7Days (today : ℤ) (d : Option ℤ) : Bool :=
  d.any (fun x => today < x && x ≤ today + 7)

/-- Window primitive `isInNext7Days` (inclusive of today): from today up to
and including `today + 7`. -/
def isInNext7Days (today : ℤ) (d : Option ℤ) : Bool :=
  d.any (fun x => today ≤ x && x ≤ today + 7)

/-- Did the recorded cancellation timestamp fall on today? -/
def isCancelledToday (env : DailyEnv) (ct : String) : Bool :=
  if ct = "" then false
  else isToday env.today (env.parseTS ct)

/-- Processing of one data row by the `getDailyReports` loop: rows whose
booking date does not parse are skipped, all six report sections test their
own window predicate, and per-branch maps are touched only when the branch
key exists. -/
def processRowDaily (env : DailyEnv) (r : DailyReports) (row : Row) : DailyReports :=
  match env.parseBD (cell row 3) with
  | none => r
  | some bd =>
      let branch := cell row 1
      let status := lowerStr (cell row 2)
      let price := parsePrice (cell row 12)
      let createdToday := isToday env.today (env.parseTS (cell row 0))
      let notCancel := ! strIncludes status "cancel"
      let r1 :=
        if createdToday && isToday env.today (some bd) && notCancel then
          { r with otsBookings := bumpSection r.otsBookings branch price }
        else r
      let r2 :=
        if createdToday && isNext7Days env.today (some bd) && notCancel then
          { r1 with overallBookings := bumpSection r1.overallBookings branch price }
        else r1
      let r3 :=
        if createdToday && isTomorrow env.today (some bd) && notCancel then
          { r2 with bookedTomorrow := bumpBB r2.bookedTomorrow branch price }
        else r2
      let r4 :=
        if isInNext7Days env.today (some bd) && notCancel then
          { r3 with bookedNext7Days := bumpBB r3.bookedNext7Days branch price }
        else r3
      let r5 :=
        if createdToday && strIncludes status "cancel" && isCancelledToday env (cell row 43) then
          { r4 with cancellations := bumpSection r4.cancellations branch price }
        else r4
      if isTomorrow env.today (some bd) && notCancel then
        { r5 with overallBookingsTomorrow := bumpTot r5.overallBookingsTomorrow price }
      else r5

/-- The zero-valued response returned by `getDailyReports` when the table has
fewer than two rows: note the per-branch maps are empty objects here. -/
def emptyDailyReports : DailyReports :=
  ⟨⟨0, 0, 0, []⟩, ⟨0, 0, 0, []⟩, [], [], ⟨0, 0, 0, []⟩, ⟨0, 0, 0⟩⟩

/-- The report object as initialized before the processing loop: every
per-branch map carries exactly the hard-coded branch list, at zero. -/
def initDailyReports : DailyReports :=
  let zs := dailyBranches.map (fun b => (b, (⟨0, 0⟩ : BranchStat)))
  ⟨⟨0, 0, 0, zs⟩, ⟨0, 0, 0, zs⟩, zs, zs, ⟨0, 0, 0, zs⟩, ⟨0, 0, 0⟩⟩

/-- Embedding of `getDailyReports` over the raw DB table (header row first):
fewer than two rows short-circuits to the empty-shaped zero response,
otherwise the data rows are folded through the section logic. -/
def getDailyReportsCore (env : DailyEnv) (rows : List Row) : DailyReports :=
  if rows.length < 2 then emptyDailyReports
  else (rows.drop 1).foldl (processRowDaily env) initDailyReports

/-- An overall revenue sum plus its per-branch map, as accumulated by the
sales report (`obj[branch] = (obj[branch] || 0) + price` adds new keys at the
end, in JS object insertion order). -/
structure SalesSum where
  overall : ℚ
  byBranch : List (String × ℚ)
deriving DecidableEq

/-- Bump an insertion-ordered rational association list at a key, adding the
key at the end when absent. -/
def addQAssoc (l : List (String × ℚ)) (k : String) (v : ℚ) : List (String × ℚ) :=
  if l.any (fun e => e.1 = k) then
    l.map (fun e => if e.1 = k then (e.1, e.2 + v) else e)
  else l ++ [(k, v)]

/-- Bump an insertion-ordered counter association list at a key. -/
def addNAssoc (l : List (String × ℕ)) (k : String) : List (String × ℕ) :=
  if l.any (fun e => e.1 = k) then
    l.map (fun e => if e.1 = k then (e.1, e.2 + 1) else e)
  else l ++ [(k, 1)]

/-- Add a price to a sales sum, overall and for the given branch. -/
def bumpSum (s : SalesSum) (b : String) (v : ℚ) : SalesSum :=
  ⟨s.overall + v, addQAssoc s.byBranch b v⟩

/-- Bump a keyed (sales, bookings) bucket map, appending a fresh bucket when
the key is new. -/
def bumpKeyed {κ : Type} [DecidableEq κ] (l : List (κ × ℚ × ℕ)) (k : κ) (v : ℚ) :
    List (κ × ℚ × ℕ) :=
  if l.any (fun e => e.1 = k) then
    l.map (fun e => if e.1 = k then (e.1, e.2.1 + v, e.2.2 + 1) else e)
  else l ++ [(k, v, 1)]

/-- The accumulators of the `getSalesReport` processing loop. -/
structure SalesAcc where
  totalBookings : ℕ
  bookingsByBranch : List (String × ℕ)
  totalArrivals : ℕ
  arrivalsByBranch : List (String × ℕ)
  rangeSales : SalesSum
  previousRangeSales : SalesSum
  firstHalfSales : SalesSum
  secondHalfSales : SalesSum
  dailySales : SalesSum
  currentMonthSales : SalesSum
  lastMonthSales : SalesSum
  yearlyOverall : ℚ
  yearlyMonthly : List (ℤ × ℚ × ℕ)
  monthlyData : List ((ℤ × ℤ) × ℚ × ℕ)
  dailyData : List ((ℤ × ℤ × ℤ) × ℚ × ℕ)
deriving DecidableEq

/-- All accumulators at zero, as initialized before the loop. -/
def initSalesAcc : SalesAcc :=
  ⟨0, [], 0, [], ⟨0, []⟩, ⟨0, []⟩, ⟨0, []⟩, ⟨0, []⟩, ⟨0, []⟩, ⟨0, []⟩, ⟨0, []⟩,
    0, [], [], []⟩

/-- The `arrivalStatuses` allow-list used for the arrival-rate metric. -/
def arrivalStatuses : List String :=
  ["Arrived not potential", "Arrived & bought", "Comeback & bought"]

/-- Request-time environment of `getSalesReport`: the selected branch, the
resolved current and previous range boundaries, the range midpoint, the
start of today and of the next day, the current year and month, the booking
date parser, and the `Date` accessors `getFullYear` / `getMonth` /
`getDate` on the abstract integer time line. -/
structure SalesEnv where
  selectedBranch : String
  startDate : ℤ
  endDate : ℤ
  prevStart : ℤ
  prevEnd : ℤ
  midpoint : ℤ
  today : ℤ
  todayNext : ℤ
  curYear : ℤ
  curMonth : ℤ
  parseBD : String → Option ℤ
  yearOf : ℤ → ℤ
  monthOf : ℤ → ℤ
  dayOf : ℤ → ℤ

/-- Booking/arrival counting stage of the `getSalesReport` loop body: every
in-range row is counted in `totalBookings` regardless of its status, and
additionally as an arrival when the status is in the arrival allow-list. -/
def salesCount (env : SalesEnv) (acc : SalesAcc) (branch status : String) (d : ℤ) : SalesAcc :=
  if env.startDate ≤ d ∧ d ≤ env.endDate then
    let a := { acc with
      totalBookings := acc.totalBookings + 1,
      bookingsByBranch := addNAssoc acc.bookingsByBranch branch }
    if arrivalStatuses.contains status then
      { a with
        totalArrivals := a.totalArrivals + 1,
        arrivalsByBranch := addNAssoc a.arrivalsByBranch branch }
    else a
  else acc

/-- Range-sales update of the revenue stage. -/
def stRange (env : SalesEnv) (branch : String) (price : ℚ) (d : ℤ) (a : SalesAcc) : SalesAcc :=
  if env.startDate ≤ d ∧ d ≤ env.endDate then
    { a with rangeSales := bumpSum a.rangeSales branch price }
  else a

/-- Previous-range update of the revenue stage. -/
def stPrev (env : SalesEnv) (branch : String) (price : ℚ) (d : ℤ) (a : SalesAcc) : SalesAcc :=
  if env.prevStart ≤ d ∧ d ≤ env.prevEnd then
    { a with previousRangeSales := bumpSum a.previousRangeSales branch price }
  else a

/-- Today-sales update of the revenue stage. -/
def stDaily (env : SalesEnv) (branch : String) (price : ℚ) (d : ℤ) (a : SalesAcc) : SalesAcc :=
  if env.today ≤ d ∧ d < env.todayNext then
    { a with dailySales := bumpSum a.dailySales branch price }
  else a

/-- First-half/second-half split update of the revenue stage. -/
def stHalf (env : SalesEnv) (branch : String) (price : ℚ) (d : ℤ) (a : SalesAcc) : SalesAcc :=
  if d ≤ env.midpoint then
    { a with firstHalfSales := bumpSum a.firstHalfSales branch price }
  else
    { a with secondHalfSales := bumpSum a.secondHalfSales branch price }

/-- Last-month update of the revenue stage (with the year-wrap at January). -/
def stLastMonth (env : SalesEnv) (branch : String) (price : ℚ) (y m : ℤ) (a : SalesAcc) :
    SalesAcc :=
  if y = (if env.curMonth = 0 then env.curYear - 1 else env.curYear)
      ∧ m = (if env.curMonth = 0 then 11 else env.curMonth - 1) then
    { a with lastMonthSales := bumpSum a.lastMonthSales branch price }
  else a

/-- Current-year update of the revenue stage. -/
def stYearly (env : SalesEnv) (price : ℚ) (y m : ℤ) (a : SalesAcc) : SalesAcc :=
  if y = env.curYear then
    { a with
      yearlyOverall := a.yearlyOverall + price,
      yearlyMonthly := bumpKeyed a.yearlyMonthly m price }
  else a

/-- In-range monthly bucket update of the revenue stage. -/
def stMonthly (price : ℚ) (y m : ℤ) (a : SalesAcc) : SalesAcc :=
  { a with monthlyData := bumpKeyed a.monthlyData (y, m) price }

/-- In-range daily bucket update of the revenue stage. -/
def stDailyData (price : ℚ) (y m day : ℤ) (a : SalesAcc) : SalesAcc :=
  { a with dailyData := bumpKeyed a.dailyData (y, m, day) price }

/-- Revenue stage of the `getSalesReport` loop body: rows whose status is
not exactly `Arrived & bought` or `Comeback & bought` are dropped before any
revenue accumulator is touched; the surviving rows go through the range and
previous-range sums, and, when inside the selected range, through the daily,
half-split, last-month, yearly, monthly and per-day accumulators. -/
def salesRevenueTail (env : SalesEnv) (a1 : SalesAcc) (branch status : String)
    (price : ℚ) (d : ℤ) : SalesAcc :=
  if status ≠ "Arrived & bought" ∧ status ≠ "Comeback & bought" then a1
  else
    let a3 := stPrev env branch price d (stRange env branch price d a1)
    if d < env.startDate ∨ env.endDate < d then a3
    else
      stDailyData price (env.yearOf d) (env.monthOf d) (env.dayOf d)
        (stMonthly price (env.yearOf d) (env.monthOf d)
          (stYearly env price (env.yearOf d) (env.monthOf d)
            (stLastMonth env branch price (env.yearOf d) (env.monthOf d)
              (stHalf env branch price d
                (stDaily env branch price d a3)))))

/-- Processing of one data row by the `getSalesReport` loop, translated
branch for branch: the branch filter and the unparseable-date skip come
first, bookings and arrivals are counted for every in-range row regardless
of status, and every revenue accumulator is reached only by rows whose
status is exactly `Arrived & bought` or `Comeback & bought`. -/
def processRowSales (env : SalesEnv) (acc : SalesAcc) (row : Row) : SalesAcc :=
  let branch := cell row 1
  let status := cell row 2
  let price := parsePrice (cell row 12)
  if env.selectedBranch ≠ "all" ∧ branch ≠ env.selectedBranch then acc
  else
    match env.parseBD (cell row 3) with
    | none => acc
    | some d =>
        salesRevenueTail env (salesCount env acc branch status d) branch status price d

/-- Embedding of the `getSalesReport` accumulation over the raw DB table:
fewer than two rows short-circuits to the all-zero accumulators (the source
returns the zero-valued response there), otherwise the data rows are folded
through the loop body. -/
def getSalesReportCore (env : SalesEnv) (rows : List Row) : SalesAcc :=
  if rows.length < 2 then initSalesAcc
  else (rows.drop 1).foldl (processRowSales env) initSalesAcc

/-- Concrete pre-update row whose cancellation-time column 43 is already
set: 43 leading cells then the recorded cancellation timestamp. -/
def exRowCancelled : Row :=
  List.replicate 43 "" ++ ["2025-01-01T09:00:00.000Z"]

/-- Concrete update payload whose status is again `Cancelled`. -/
def updCancelAgain : UpdateData :=
  ⟨"FELIZ", some "Cancelled", "Ana", "Cruz", "30", "0917", "", "ana@x.com",
    "Facial", "", "", "Cash", "1000", "Female", "", "", "", "", "", "", "", "",
    "Agent A", ""⟩

/-- Modelled from the spec: the companion-name cross-match as the spec
states it — the candidate companion name equals a historical customer name,
or the candidate own name equals a historical record companion name (both
sides non-empty, case-insensitive). -/
def specCompanionCrossMatch (c : Candidate) (r : Row) : Bool :=
  (candCompanion c ≠ "" && rowFullName r ≠ "" && candCompanion c == rowFullName r) ||
  (candFullName c ≠ "" && rowCompanion r ≠ "" && candFullName c == rowCompanion r)

/-- Did the match chain classify this historical row as a companion-type
match? -/
def companionMatched (c : Candidate) (r : Row) : Bool :=
  match matchReasonFor c r with
  | some p => p.2 == "companion"
  | none => false

/-- Concrete candidate with no companion, whose own name appears as a
companion on a historical row. -/
def candAlice : Candidate :=
  ⟨"Alice", "Smith", "alice@x.com", "111", "alice.fb", "", ""⟩

/-- Concrete historical row: customer Bob Jones whose recorded companion is
Alice Smith, sharing no other identity field with the candidate. -/
def rowBob : Row :=
  ["", "FELIZ", "", "", "Bob", "Jones", "", "", "", "", "", "", "", "",
   "222", "bob.fb", "bob@y.com", "", "", "", "Alice", "Smith"]

/-- Concrete candidate bringing companion Carol Lee. -/
def candWithCarol : Candidate :=
  ⟨"Alice", "Smith", "alice@x.com", "111", "alice.fb", "Carol", "Lee"⟩

/-- Concrete historical row whose customer is Carol Lee. -/
def rowCarol : Row :=
  ["", "HERA", "", "", "Carol", "Lee", "", "", "", "", "", "", "", "",
   "333", "carol.fb", "carol@z.com", "", "", "", "", ""]

/-- Concrete history: a header row followed by one data row for Ana Cruz. -/
def histAna : List Row :=
  [[], ["", "FELIZ", "Scheduled", "Jan 5 2025 10:00 AM", "Ana", "Cruz"]]

/-- Concrete booking payload for the same customer Ana Cruz, with caller
status `Scheduled`. -/
def bookingAna : BookingData :=
  ⟨"FELIZ", "Scheduled", "Ana", "Cruz", "30", "0917", "", "ana@x.com",
    "Facial", "", "", "Cash", "1000", "Female", "", "", "", "", "", "", "",
    "", "Agent A"⟩

/-- Degenerate model of `new Date(year, month, day)` for concrete runs. -/
def zeroMk : ℤ → ℤ → ℤ → ℤ := fun _ _ _ => 0

/-- Model of a `new Date(string)` fallback that recognizes nothing. -/
def noFb : String → Option ℤ := fun _ => none

/-- The shared-util date parser instantiated with the degenerate builtins. -/
def utilParse : String → Option ℤ :=
  parseDateString zeroMk noFb

/-- Concrete daily-report environment built on the shared-util parser. -/
def dailyEnv0 : DailyEnv :=
  ⟨0, noFb, utilParse⟩

/-- Concrete sales-report environment built on the shared-util parser. -/
def salesEnv0 : SalesEnv :=
  ⟨"all", 0, 100, -101, -1, 50, 10, 11, 2025, 5, utilParse,
    fun _ => 2025, fun _ => 5, fun _ => 10⟩

/-- Concrete row whose booking-date cell parses under no format. -/
def rowBadDate : Row :=
  ["", "", "", "not-a-date"]

/-- Concrete booking row on a branch outside the hard-coded list. -/
def rowNowhere : Row :=
  ["t0", "NOWHERE", "Scheduled", "d0", "", "", "", "", "", "", "", "", "500"]

/-- Concrete daily environment recognizing only the timestamps of
`rowNowhere`, both on day 0. -/
def dailyEnv1 : DailyEnv :=
  ⟨0, fun s => if s = "t0" then some 0 else none,
    fun s => if s = "d0" then some 0 else none⟩

/-- Concrete in-range cancelled booking row with price 100. -/
def rowCancelledSale : Row :=
  ["", "FELIZ", "Cancelled", "Jun 10 2025", "", "", "", "", "", "", "", "", "100"]

/-- Concrete in-range purchase-confirmed booking row with price 100. -/
def rowBoughtSale : Row :=
  ["", "FELIZ", "Arrived & bought", "Jun 10 2025", "", "", "", "", "", "", "", "", "100"]

/-- Defaulting against the empty string is the identity on strings. -/
theorem jsOr_empty (a : String) : jsOr a "" = a := by
  unfold jsOr
  split <;> simp_all

/-- C6: boundary behavior of the two next-7-days window primitives of
`getDailyReports`: the inclusive variant `isInNext7Days` accepts today and
`today + 7` but not `today + 8`, while the strict variant `isNext7Days`
rejects today and accepts `today + 1`. -/
theorem next7Days_boundaries (t : ℤ) :
    isInNext7Days t (some t) = true ∧
    isInNext7Days t (some (t + 7)) = true ∧
    isInNext7Days t (some (t + 8)) = false ∧
    isNext7Days t (some t) = false ∧
    isNext7Days t (some (t + 1)) = true := by
  refine ⟨?_, ?_, ?_, ?_, ?_⟩ <;>
    simp [isInNext7Days, isNext7Days, Option.any]

/-- C9: an update preserves the duplicate-match result columns 30-33 of the
stored row verbatim while recomputing the normalization columns 25-29 from
the updated email, phone, social-media and name values. -/
theorem updateBooking_frame (ex : Row) (u : UpdateData) (ts : String) :
    cell (updatedDbRow ex u ts) 30 = cell ex 30 ∧
    cell (updatedDbRow ex u ts) 31 = cell ex 31 ∧
    cell (updatedDbRow ex u ts) 32 = cell ex 32 ∧
    cell (updatedDbRow ex u ts) 33 = cell ex 33 ∧
    cell (updatedDbRow ex u ts) 25 = lowerStr u.email ∧
    cell (updatedDbRow ex u ts) 26 = digitsOnly u.phone ∧
    cell (updatedDbRow ex u ts) 27 = lowerStr u.socialMedia ∧
    cell (updatedDbRow ex u ts) 28 = trimStr (lowerStr (u.firstName ++ " " ++ u.lastName)) ∧
    cell (updatedDbRow ex u ts) 29 = updCompanionNorm u := by
  refine ⟨?_, ?_, ?_, ?_, ?_, ?_, ?_, ?_, ?_⟩ <;>
    simp [updatedDbRow, cell, jsOr_empty]

/-- C8 counterexample: a booking whose `cancellationTime` is already
non-empty loses it on a later update that again carries status `Cancelled`:
the stored value is replaced by the new timestamp, so the field is not set
exactly once and does change after first being set. -/
theorem cancellationTime_overwritten_cx :
    cell exRowCancelled 43 = "2025-01-01T09:00:00.000Z" ∧
    cell (updatedDbRow exRowCancelled updCancelAgain "2025-03-15T10:00:00.000Z") 43
      = "2025-03-15T10:00:00.000Z" ∧
    cell (updatedDbRow exRowCancelled updCancelAgain "2025-03-15T10:00:00.000Z") 43
      ≠ cell exRowCancelled 43 := by
  decide

/-- C8 amended: the update logic overwrites `cancellationTime` with the
current timestamp on every update whose status is case-insensitively exactly
`cancelled` — including updates to a booking that is already cancelled — and
preserves the previous value verbatim on every other update; in particular a
non-empty value is never cleared to empty by an update with a non-empty
timestamp. -/
theorem cancellationTime_update (ex : Row) (u : UpdateData) (ts : String) :
    (optTruthy u.status = true → lowerStr (u.status.getD "") = "cancelled" →
      cell (updatedDbRow ex u ts) 43 = ts) ∧
    (¬(optTruthy u.status = true ∧ lowerStr (u.status.getD "") = "cancelled") →
      cell (updatedDbRow ex u ts) 43 = cell ex 43) ∧
    (cell ex 43 ≠ "" → ts ≠ "" → cell (updatedDbRow ex u ts) 43 ≠ "") := by
  have hcell : cell (updatedDbRow ex u ts) 43
      = updatedCancellationTime (cell ex 43) u.status ts := by
    simp [updatedDbRow, cell]
  refine ⟨?_, ?_, ?_⟩
  · intro h1 h2
    rw [hcell]
    unfold updatedCancellationTime
    rw [if_pos ⟨by simp [h1], h2⟩]
  · intro h
    rw [hcell]
    unfold updatedCancellationTime
    rw [if_neg (by simpa using h), jsOr_empty]
  · intro h1 h2
    rw [hcell]
    unfold updatedCancellationTime
    split
    · exact h2
    · rw [jsOr_empty]
      exact h1

/-- Witness for the amended C8 theorem at concrete inputs. -/
theorem cancellationTime_update_w :
    cell (updatedDbRow exRowCancelled updCancelAgain "2025-03-15T10:00:00.000Z") 43
      = "2025-03-15T10:00:00.000Z" ∧
    cell (updatedDbRow exRowCancelled updCancelAgain "2025-03-15T10:00:00.000Z") 43 ≠ "" := by
  refine ⟨?_, ?_⟩
  · exact (cancellationTime_update exRowCancelled updCancelAgain
      "2025-03-15T10:00:00.000Z").1 (by decide) (by decide)
  · exact (cancellationTime_update exRowCancelled updCancelAgain
      "2025-03-15T10:00:00.000Z").2.2 (by decide) (by decide)

/-- C2 counterexample: the cross-match predicate claimed by the spec is true
for this candidate/row pair (candidate own name equals the historical
companion name), yet the code classifies no companion match at all — the
code never compares the candidate own name against historical companion
names. -/
theorem companionCross_cx :
    specCompanionCrossMatch candAlice rowBob = true ∧
    companionMatched candAlice rowBob = false := by
  decide

/-- C2 amended: when the four higher-priority predicates (name, email,
phone, social) all fail for a historical row, the chain reports a
companion-type match exactly when the candidate companion name is non-empty
and equals either the historical companion name or the historical customer
name; the candidate own name is never cross-checked against historical
companion names. -/
theorem companionCross_amended (c : Candidate) (r : Row)
    (h1 : ¬(rowFullName r ≠ "" ∧ candFullName c ≠ "" ∧ rowFullName r = candFullName c))
    (h2 : ¬(candEmail c ≠ "" ∧ rowEmail r ≠ "" ∧ rowEmail r = candEmail c))
    (h3 : ¬(candPhone c ≠ "" ∧ rowPhone r ≠ "" ∧ rowPhone r = candPhone c))
    (h4 : ¬(candSocial c ≠ "" ∧ rowSocial r ≠ "" ∧ rowSocial r = candSocial c)) :
    companionMatched c r = true ↔
      candCompanion c ≠ "" ∧
        ((rowCompanion r ≠ "" ∧ rowCompanion r = candCompanion c) ∨
         (rowFullName r ≠ "" ∧ rowFullName r = candCompanion c)) := by
  have key : matchReasonFor c r =
      (if candCompanion c ≠ "" ∧ rowCompanion r ≠ "" ∧ rowCompanion r = candCompanion c then
        some ("Previously Companion", "companion")
      else if candCompanion c ≠ "" ∧ rowFullName r ≠ "" ∧ rowFullName r = candCompanion c then
        some ("Companion Match (was customer)", "companion")
      else none) := by
    unfold matchReasonFor
    rw [if_neg h1, if_neg h2, if_neg h3, if_neg h4]
  unfold companionMatched
  rw [key]
  by_cases h5 : candCompanion c ≠ "" ∧ rowCompanion r ≠ "" ∧ rowCompanion r = candCompanion c
  · rw [if_pos h5]
    constructor
    · intro _
      exact ⟨h5.1, Or.inl ⟨h5.2.1, h5.2.2⟩⟩
    · intro _
      rfl
  · rw [if_neg h5]
    by_cases h6 : candCompanion c ≠ "" ∧ rowFullName r ≠ "" ∧ rowFullName r = candCompanion c
    · rw [if_pos h6]
      constructor
      · intro _
        exact ⟨h6.1, Or.inr ⟨h6.2.1, h6.2.2⟩⟩
      · intro _
        rfl
    · rw [if_neg h6]
      constructor
      · intro hfalse
        exact Bool.noConfusion hfalse
      · intro hrhs
        exfalso
        rcases hrhs with ⟨hne, hor⟩
        cases hor with
        | inl h => exact h5 ⟨hne, h.1, h.2⟩
        | inr h => exact h6 ⟨hne, h.1, h.2⟩

/-- Witness for the amended C2 theorem at a concrete companion match. -/
theorem companionCross_amended_w :
    companionMatched candWithCarol rowCarol = true :=
  (companionCross_amended candWithCarol rowCarol
    (by decide) (by decide) (by decide) (by decide)).mpr (by decide)

/-- C3 counterexample: the duplicate matcher fires for this booking, yet the
persisted DB master row keeps the caller-supplied status `Scheduled` in its
Booking Status column 2 — only the Intake status column and the DB
`dash_booking_status` column 42 are forced to `Promo hunter`, so the status
is not overridden in every persisted copy. -/
theorem createBooking_status_cx :
    (checkPromoHunter histAna (candidateOf bookingAna)).status = "Promo hunter" ∧
    cell (createBookingRows histAna bookingAna "id1" "ts1" "Feb 1 2025 10:00 AM").2 2
      = "Scheduled" ∧
    cell (createBookingRows histAna bookingAna "id1" "ts1" "Feb 1 2025 10:00 AM").1 3
      = "Promo hunter" := by
  decide

/-- C3 amended: when the duplicate matcher reports `Promo hunter`, the
Intake row status column 3 and the DB master row `dash_booking_status`
column 42 are forced to `Promo hunter`, while the DB master row primary
Booking Status column 2 retains the caller-supplied status (defaulted to
`Scheduled`). -/
theorem createBooking_status (hist : List Row) (b : BookingData) (id ts fd : String)
    (h : (checkPromoHunter hist (candidateOf b)).status = "Promo hunter") :
    cell (createBookingRows hist b id ts fd).1 3 = "Promo hunter" ∧
    cell (createBookingRows hist b id ts fd).2 42 = "Promo hunter" ∧
    cell (createBookingRows hist b id ts fd).2 2 = jsOr b.status "Scheduled" := by
  unfold createBookingRows
  refine ⟨?_, ?_, ?_⟩ <;> simp [intakeRow, masterDbRow, cell, finalStatusOf, h]

/-- Witness for the amended C3 theorem at the concrete matching booking. -/
theorem createBooking_status_w :
    cell (createBookingRows histAna bookingAna "id1" "ts1" "Feb 1 2025 10:00 AM").1 3
        = "Promo hunter" ∧
    cell (createBookingRows histAna bookingAna "id1" "ts1" "Feb 1 2025 10:00 AM").2 42
        = "Promo hunter" ∧
    cell (createBookingRows histAna bookingAna "id1" "ts1" "Feb 1 2025 10:00 AM").2 2
        = jsOr bookingAna.status "Scheduled" :=
  createBooking_status histAna bookingAna "id1" "ts1" "Feb 1 2025 10:00 AM" (by decide)

/-- Removing commas from a peso-free digits/comma/dot string is the same as
keeping only digits and dots. -/
theorem removeCommas_eq_filter (t : List Char)
    (h : ∀ c ∈ t, c.isDigit ∨ c = ',' ∨ c = '.') :
    removeCommas t = t.filter (fun c => c.isDigit || c == '.') := by
  unfold removeCommas
  apply List.filter_congr
  intro c hc
  by_cases hcomma : c = ','
  · subst hcomma
    rfl
  · rcases h c hc with hd | hc2 | hdot
    · simp [hcomma, hd]
    · exact absurd hc2 hcomma
    · subst hdot
      rfl

/-- On strings whose characters are digits, commas, dots and at most one
peso sign, the cleaning done by `parsePrice` coincides with keeping only the
digits-and-dot characters. -/
theorem clean_eq_filter (l : List Char)
    (h1 : ∀ c ∈ l, c.isDigit ∨ c = ',' ∨ c = '.' ∨ c = '₱')
    (h2 : l.count '₱' ≤ 1) :
    removeCommas (removeFirstChar '₱' l) = l.filter (fun c => c.isDigit || c == '.') := by
  induction l with
  | nil => rfl
  | cons x xs ih =>
      by_cases hx : x = '₱'
      · subst hx
        have hcount : xs.count '₱' = 0 := by
          rw [List.count_cons] at h2
          simp at h2
          omega
        have hxs : ∀ c ∈ xs, c.isDigit ∨ c = ',' ∨ c = '.' := by
          intro c hc
          rcases h1 c (List.mem_cons_of_mem _ hc) with hd | hc2 | hdot | hp
          · exact Or.inl hd
          · exact Or.inr (Or.inl hc2)
          · exact Or.inr (Or.inr hdot)
          · exfalso
            rw [List.count_eq_zero] at hcount
            exact hcount (hp ▸ hc)
        rw [show removeFirstChar '₱' ('₱' :: xs) = xs from rfl]
        rw [removeCommas_eq_filter xs hxs, List.filter_cons]
        simp [show (('₱'.isDigit || '₱' == '.') : Bool) = false from rfl]
      · have hstep : removeFirstChar '₱' (x :: xs) = x :: removeFirstChar '₱' xs := by
          simp [removeFirstChar, hx]
        have hxs1 : ∀ c ∈ xs, c.isDigit ∨ c = ',' ∨ c = '.' ∨ c = '₱' :=
          fun c hc => h1 c (List.mem_cons_of_mem _ hc)
        have hxs2 : xs.count '₱' ≤ 1 := by
          rw [List.count_cons] at h2
          omega
        have ih2 := ih hxs1 hxs2
        rw [hstep]
        by_cases hc : x = ','
        · subst hc
          rw [show removeCommas (',' :: removeFirstChar '₱' xs)
              = removeCommas (removeFirstChar '₱' xs) from by
            unfold removeCommas
            simp]
          rw [ih2, List.filter_cons]
          simp [show ((','.isDigit || ',' == '.') : Bool) = false from rfl]
        · have hkeep : (x.isDigit || x == '.') = true := by
            rcases h1 x (List.mem_cons_self x xs) with hd | hc2 | hdot | hp
            · simp [hd]
            · exact absurd hc2 hc
            · subst hdot
              rfl
            · exact absurd hp hx
          rw [show removeCommas (x :: removeFirstChar '₱' xs)
              = x :: removeCommas (removeFirstChar '₱' xs) from by
            unfold removeCommas
            simp [hc]]
          rw [ih2, List.filter_cons, hkeep]
          simp

/-- C4 counterexample: `parsePrice` does not strip every non-digit
character before float conversion — on the currency string `$100` it yields
0, while parsing the digits-and-decimal-point-only substring `100` yields
100, so the two disagree. -/
theorem parsePrice_strip_cx :
    parsePrice "$100" = 0 ∧
    (jsParseFloat (digitsDotsOnly "$100")).getD 0 = 100 ∧
    parsePrice "$100" ≠ (jsParseFloat (digitsDotsOnly "$100")).getD 0 := by
  have h1 : parsePrice "$100" = 0 := by decide
  have h2 : (jsParseFloat (digitsDotsOnly "$100")).getD 0 = 100 := by
    rw [show digitsDotsOnly "$100" = "100" from by decide]
    rw [show jsParseFloat "100" = some ((1 : ℚ) * ((natOfDigits ['1', '0', '0'] : ℚ)
      + (natOfDigits [] : ℚ) / (10 : ℚ) ^ (List.length ([] : List Char)))) from rfl]
    rw [show natOfDigits ['1', '0', '0'] = 100 from by decide,
      show natOfDigits ([] : List Char) = 0 from by decide]
    norm_num
  refine ⟨h1, h2, ?_⟩
  rw [h1, h2]
  norm_num

/-- C4 amended: `parsePrice` strips only the first peso sign and every comma
(not every non-numeric character); consequently, for price strings whose
characters are digits, commas, decimal points and at most one peso sign, the
result equals float-parsing the digits-and-decimal-point-only substring, and
empty or unparsable input yields 0 rather than an error. -/
theorem parsePrice_strip (s : String)
    (halpha : ∀ c ∈ s.data, c.isDigit ∨ c = ',' ∨ c = '.' ∨ c = '₱')
    (hpeso : s.data.count '₱' ≤ 1) :
    parsePrice s = (jsParseFloat (digitsDotsOnly s)).getD 0 := by
  by_cases hs : s = ""
  · subst hs
    decide
  · have hdef : parsePrice s
        = (jsParseFloat ⟨removeCommas (removeFirstChar '₱' s.data)⟩).getD 0 := by
      unfold parsePrice
      rw [if_neg hs]
    rw [hdef, clean_eq_filter s.data halpha hpeso]
    rfl

/-- Witness for the amended C4 theorem at the peso-and-commas price string,
including its concrete numeric value. -/
theorem parsePrice_strip_w :
    parsePrice "₱1,234.50" = (jsParseFloat (digitsDotsOnly "₱1,234.50")).getD 0 ∧
    parsePrice "₱1,234.50" = 1234.50 := by
  have happ := parsePrice_strip "₱1,234.50" (by decide) (by decide)
  refine ⟨happ, ?_⟩
  rw [happ]
  rw [show digitsDotsOnly "₱1,234.50" = "1234.50" from by decide]
  rw [show jsParseFloat "1234.50" = some ((1 : ℚ) * ((natOfDigits ['1', '2', '3', '4'] : ℚ)
    + (natOfDigits ['5', '0'] : ℚ) / (10 : ℚ) ^ (List.length ['5', '0']))) from rfl]
  rw [show natOfDigits ['1', '2', '3', '4'] = 1234 from by decide,
    show natOfDigits ['5', '0'] = 50 from by decide]
  norm_num

/-- C5 counterexample: the booking-controller-local date parser does not
return a null result on a malformed string — its fallback hands back the
raw `new Date(string)` object, here an invalid date (inner `none`), rather
than the absent result the claim requires of every date parser. -/
theorem parseDateLocal_invalid_cx :
    parseDateStringLocal zeroMk noFb "not-a-date" = some none ∧
    parseDateStringLocal zeroMk noFb "not-a-date" ≠ none := by
  decide

/-- C5 amended: the shared-util parser returns an absent result on empty
input and whenever all of its formats and its fallback fail; the
booking-controller-local variant instead passes the possibly-invalid
fallback date object through; and both report loops skip a row whose
booking date fails to parse, leaving every accumulator unchanged and
raising no error. -/
theorem parseDate_failure (mk : ℤ → ℤ → ℤ → ℤ) (fb : String → Option ℤ) (s : String)
    (env : DailyEnv) (sv : SalesEnv) (r : DailyReports) (acc : SalesAcc) (row : Row) :
    parseDateString mk fb "" = none ∧
    (slashParts s = none → monthFormat s = none → fb s = none →
      parseDateString mk fb s = none) ∧
    (s ≠ "" → monthFormat s = none → parseDateStringLocal mk fb s = some (fb s)) ∧
    (env.parseBD (cell row 3) = none → processRowDaily env r row = r) ∧
    (sv.parseBD (cell row 3) = none → processRowSales sv acc row = acc) := by
  refine ⟨?_, ?_, ?_, ?_, ?_⟩
  · unfold parseDateString
    rw [if_pos rfl]
  · intro h1 h2 h3
    by_cases hs : s = ""
    · subst hs
      unfold parseDateString
      rw [if_pos rfl]
    · simp only [parseDateString, if_neg hs, h1, h2]
      exact h3
  · intro hs hm
    simp only [parseDateStringLocal, if_neg hs, hm]
  · intro h
    simp only [processRowDaily, h]
  · intro h
    simp only [processRowSales, h]
    split <;> rfl

/-- Witness for the amended C5 theorem at concrete malformed inputs. -/
theorem parseDate_failure_w :
    parseDateString zeroMk noFb "" = none ∧
    parseDateString zeroMk noFb "13/45/999" = none ∧
    parseDateStringLocal zeroMk noFb "not-a-date" = some (noFb "not-a-date") ∧
    processRowDaily dailyEnv0 initDailyReports rowBadDate = initDailyReports ∧
    processRowSales salesEnv0 initSalesAcc rowBadDate = initSalesAcc := by
  refine ⟨?_, ?_, ?_, ?_, ?_⟩
  · exact (parseDate_failure zeroMk noFb "" dailyEnv0 salesEnv0 initDailyReports
      initSalesAcc rowBadDate).1
  · exact (parseDate_failure zeroMk noFb "13/45/999" dailyEnv0 salesEnv0 initDailyReports
      initSalesAcc rowBadDate).2.1 (by decide) (by decide) rfl
  · exact (parseDate_failure zeroMk noFb "not-a-date" dailyEnv0 salesEnv0 initDailyReports
      initSalesAcc rowBadDate).2.2.1 (by decide) (by decide)
  · exact (parseDate_failure zeroMk noFb "x" dailyEnv0 salesEnv0 initDailyReports
      initSalesAcc rowBadDate).2.2.2.1 (by decide)
  · exact (parseDate_failure zeroMk noFb "x" dailyEnv0 salesEnv0 initDailyReports
      initSalesAcc rowBadDate).2.2.2.2 (by decide)

/-- C7 counterexample: the header-only table does give a zero-valued
response, but not of the same shape as the non-empty case — the per-branch
maps come back as empty objects, while any processed table carries the full
hard-coded branch key set. -/
theorem emptyTable_shape_cx :
    (getDailyReportsCore dailyEnv0 [[]]).otsBookings.byBranch.map Prod.fst
      ≠ (getDailyReportsCore dailyEnv0 [[], []]).otsBookings.byBranch.map Prod.fst ∧
    getDailyReportsCore dailyEnv0 [[]] = emptyDailyReports := by
  decide

/-- C7 amended: an aggregator facing fewer than two rows returns its fixed
fully-populated zero-valued result (all sections present, every counter and
revenue zero) rather than an error or absent response, but its per-branch
maps are empty objects and therefore do not match the branch-initialized
shape of the non-empty path. -/
theorem emptyTable_zero_shape (env : DailyEnv) (sv : SalesEnv) (rows rows2 : List Row)
    (h : rows.length < 2) (h2 : rows2.length < 2) :
    getDailyReportsCore env rows = emptyDailyReports ∧
    (getDailyReportsCore env rows).otsBookings.total = 0 ∧
    (getDailyReportsCore env rows).cancellations.revenue = 0 ∧
    (getDailyReportsCore env rows).otsBookings.byBranch = [] ∧
    getSalesReportCore sv rows2 = initSalesAcc ∧
    (getSalesReportCore sv rows2).totalBookings = 0 ∧
    (getSalesReportCore sv rows2).rangeSales = ⟨0, []⟩ := by
  unfold getDailyReportsCore getSalesReportCore
  rw [if_pos h, if_pos h2]
  exact ⟨rfl, rfl, rfl, rfl, rfl, rfl, rfl⟩

/-- Witness for the amended C7 theorem at concrete under-two-row tables. -/
theorem emptyTable_zero_shape_w :
    getDailyReportsCore dailyEnv0 [[]] = emptyDailyReports ∧
    getSalesReportCore salesEnv0 [] = initSalesAcc :=
  ⟨(emptyTable_zero_shape dailyEnv0 salesEnv0 [[]] [] (by decide) (by decide)).1,
   (emptyTable_zero_shape dailyEnv0 salesEnv0 [[]] [] (by decide) (by decide)).2.2.2.2.1⟩

/-- Per-branch bumping never changes the key set of the map. -/
theorem bumpBB_keys (l : List (String × BranchStat)) (b : String) (p : ℚ) :
    (bumpBB l b p).map Prod.fst = l.map Prod.fst := by
  unfold bumpBB
  rw [List.map_map]
  apply List.map_congr_left
  intro e _
  by_cases he : e.1 = b <;> simp [he]

/-- Per-branch bumping at an absent key leaves the map untouched. -/
theorem bumpBB_absent (l : List (String × BranchStat)) (b : String) (p : ℚ)
    (h : ∀ e ∈ l, e.1 ≠ b) : bumpBB l b p = l := by
  unfold bumpBB
  have hpt : ∀ e ∈ l,
      (if e.1 = b then (e.1, (⟨e.2.count + 1, e.2.revenue + p⟩ : BranchStat)) else e) = e := by
    intro e he
    rw [if_neg (h e he)]
  rw [List.map_congr_left hpt]
  exact List.map_id l

/-- Field-wise characterization of the daily-report loop body: each section
is updated independently under its own window predicate. -/
theorem processRowDaily_char (env : DailyEnv) (r : DailyReports) (row : Row) :
    processRowDaily env r row =
      match env.parseBD (cell row 3) with
      | none => r
      | some bd =>
          { otsBookings :=
              if isToday env.today (env.parseTS (cell row 0)) && isToday env.today (some bd)
                  && !(strIncludes (lowerStr (cell row 2)) "cancel") then
                bumpSection r.otsBookings (cell row 1) (parsePrice (cell row 12))
              else r.otsBookings,
            overallBookings :=
              if isToday env.today (env.parseTS (cell row 0)) && isNext7Days env.today (some bd)
                  && !(strIncludes (lowerStr (cell row 2)) "cancel") then
                bumpSection r.overallBookings (cell row 1) (parsePrice (cell row 12))
              else r.overallBookings,
            bookedTomorrow :=
              if isToday env.today (env.parseTS (cell row 0)) && isTomorrow env.today (some bd)
                  && !(strIncludes (lowerStr (cell row 2)) "cancel") then
                bumpBB r.bookedTomorrow (cell row 1) (parsePrice (cell row 12))
              else r.bookedTomorrow,
            bookedNext7Days :=
              if isInNext7Days env.today (some bd)
                  && !(strIncludes (lowerStr (cell row 2)) "cancel") then
                bumpBB r.bookedNext7Days (cell row 1) (parsePrice (cell row 12))
              else r.bookedNext7Days,
            cancellations :=
              if isToday env.today (env.parseTS (cell row 0))
                  && strIncludes (lowerStr (cell row 2)) "cancel"
                  && isCancelledToday env (cell row 43) then
                bumpSection r.cancellations (cell row 1) (parsePrice (cell row 12))
              else r.cancellations,
            overallBookingsTomorrow :=
              if isTomorrow env.today (some bd)
                  && !(strIncludes (lowerStr (cell row 2)) "cancel") then
                bumpTot r.overallBookingsTomorrow (parsePrice (cell row 12))
              else r.overallBookingsTomorrow } := by
  unfold processRowDaily
  cases env.parseBD (cell row 3) with
  | none => rfl
  | some bd =>
      dsimp only
      split_ifs <;> rfl

/-- The daily-report loop body preserves every per-branch key set. -/
theorem processRowDaily_keys (env : DailyEnv) (r : DailyReports) (row : Row) :
    (processRowDaily env r row).otsBookings.byBranch.map Prod.fst
        = r.otsBookings.byBranch.map Prod.fst ∧
    (processRowDaily env r row).overallBookings.byBranch.map Prod.fst
        = r.overallBookings.byBranch.map Prod.fst ∧
    (processRowDaily env r row).bookedTomorrow.map Prod.fst
        = r.bookedTomorrow.map Prod.fst ∧
    (processRowDaily env r row).bookedNext7Days.map Prod.fst
        = r.bookedNext7Days.map Prod.fst ∧
    (processRowDaily env r row).cancellations.byBranch.map Prod.fst
        = r.cancellations.byBranch.map Prod.fst := by
  rw [processRowDaily_char]
  cases env.parseBD (cell row 3) with
  | none => exact ⟨rfl, rfl, rfl, rfl, rfl⟩
  | some bd =>
      dsimp only
      refine ⟨?_, ?_, ?_, ?_, ?_⟩ <;> split_ifs <;>
        simp [bumpSection, bumpBB_keys]

/-- The whole daily-report fold preserves every per-branch key set. -/
theorem foldDaily_keys (env : DailyEnv) (rs : List Row) (acc : DailyReports) :
    ((rs.foldl (processRowDaily env) acc).otsBookings.byBranch.map Prod.fst
        = acc.otsBookings.byBranch.map Prod.fst) ∧
    ((rs.foldl (processRowDaily env) acc).overallBookings.byBranch.map Prod.fst
        = acc.overallBookings.byBranch.map Prod.fst) ∧
    ((rs.foldl (processRowDaily env) acc).bookedTomorrow.map Prod.fst
        = acc.bookedTomorrow.map Prod.fst) ∧
    ((rs.foldl (processRowDaily env) acc).bookedNext7Days.map Prod.fst
        = acc.bookedNext7Days.map Prod.fst) ∧
    ((rs.foldl (processRowDaily env) acc).cancellations.byBranch.map Prod.fst
        = acc.cancellations.byBranch.map Prod.fst) := by
  induction rs generalizing acc with
  | nil => exact ⟨rfl, rfl, rfl, rfl, rfl⟩
  | cons r rest ih =>
      simp only [List.foldl_cons]
      have hk := processRowDaily_keys env acc r
      have hi := ih (processRowDaily env acc r)
      exact ⟨hi.1.trans hk.1, hi.2.1.trans hk.2.1, hi.2.2.1.trans hk.2.2.1,
        hi.2.2.2.1.trans hk.2.2.2.1, hi.2.2.2.2.trans hk.2.2.2.2⟩

/-- C10: every per-branch map of a processed daily report carries exactly
the hard-coded branch list as its keys, and a qualifying OTS booking whose
branch is outside that list still increments the section overall total,
count and revenue while adding to no per-branch entry. -/
theorem dailyReports_fixed_branches (env : DailyEnv) (rows : List Row)
    (acc : DailyReports) (row : Row) (bd : ℤ)
    (hlen : 2 ≤ rows.length)
    (hparse : env.parseBD (cell row 3) = some bd)
    (hcond : (isToday env.today (env.parseTS (cell row 0)) && isToday env.today (some bd)
        && !(strIncludes (lowerStr (cell row 2)) "cancel")) = true)
    (habsent : ∀ e ∈ acc.otsBookings.byBranch, e.1 ≠ cell row 1) :
    ((getDailyReportsCore env rows).otsBookings.byBranch.map Prod.fst = dailyBranches ∧
     (getDailyReportsCore env rows).overallBookings.byBranch.map Prod.fst = dailyBranches ∧
     (getDailyReportsCore env rows).bookedTomorrow.map Prod.fst = dailyBranches ∧
     (getDailyReportsCore env rows).bookedNext7Days.map Prod.fst = dailyBranches ∧
     (getDailyReportsCore env rows).cancellations.byBranch.map Prod.fst = dailyBranches) ∧
    ((processRowDaily env acc row).otsBookings.total = acc.otsBookings.total + 1 ∧
     (processRowDaily env acc row).otsBookings.count = acc.otsBookings.count + 1 ∧
     (processRowDaily env acc row).otsBookings.revenue
        = acc.otsBookings.revenue + parsePrice (cell row 12) ∧
     (processRowDaily env acc row).otsBookings.byBranch = acc.otsBookings.byBranch) := by
  constructor
  · have hnot : ¬rows.length < 2 := by omega
    unfold getDailyReportsCore
    rw [if_neg hnot]
    have hf := foldDaily_keys env (rows.drop 1) initDailyReports
    refine ⟨hf.1.trans (by decide), hf.2.1.trans (by decide), hf.2.2.1.trans (by decide),
      hf.2.2.2.1.trans (by decide), hf.2.2.2.2.trans (by decide)⟩
  · rw [processRowDaily_char, hparse]
    dsimp only
    rw [if_pos hcond]
    exact ⟨rfl, rfl, rfl, bumpBB_absent _ _ _ habsent⟩

/-- Witness for the C10 theorem at a concrete unknown-branch OTS booking. -/
theorem dailyReports_fixed_branches_w :
    (getDailyReportsCore dailyEnv1 [[], rowNowhere]).otsBookings.byBranch.map Prod.fst
        = dailyBranches ∧
    (processRowDaily dailyEnv1 initDailyReports rowNowhere).otsBookings.count
        = initDailyReports.otsBookings.count + 1 ∧
    (processRowDaily dailyEnv1 initDailyReports rowNowhere).otsBookings.byBranch
        = initDailyReports.otsBookings.byBranch := by
  have h := dailyReports_fixed_branches dailyEnv1 [[], rowNowhere] initDailyReports
    rowNowhere 0 (by decide) (by decide) (by decide) (by decide)
  exact ⟨h.1.1, h.2.2.1, h.2.2.2.2⟩

/-- C1 counterexample: the sales-report booking counter does not exclude
cancelled bookings — an in-range row with cancelled-class status is counted
in `totalBookings` (while, as claimed, contributing nothing to the revenue
sums). -/
theorem salesReport_counts_cancelled_cx :
    (processRowSales salesEnv0 initSalesAcc rowCancelledSale).totalBookings = 1 ∧
    strIncludes (lowerStr "Cancelled") "cancel" = true ∧
    (processRowSales salesEnv0 initSalesAcc rowCancelledSale).rangeSales.overall = 0 := by
  decide

/-- The counting stage never touches any revenue accumulator, and counts
every in-range row. -/
theorem salesCount_fields (env : SalesEnv) (acc : SalesAcc) (branch status : String) (d : ℤ)
    (hin : env.startDate ≤ d ∧ d ≤ env.endDate) :
    (salesCount env acc branch status d).totalBookings = acc.totalBookings + 1 ∧
    ((salesCount env acc branch status d).rangeSales = acc.rangeSales ∧
     (salesCount env acc branch status d).previousRangeSales = acc.previousRangeSales ∧
     (salesCount env acc branch status d).firstHalfSales = acc.firstHalfSales ∧
     (salesCount env acc branch status d).secondHalfSales = acc.secondHalfSales ∧
     (salesCount env acc branch status d).dailySales = acc.dailySales ∧
     (salesCount env acc branch status d).lastMonthSales = acc.lastMonthSales ∧
     (salesCount env acc branch status d).yearlyOverall = acc.yearlyOverall ∧
     (salesCount env acc branch status d).yearlyMonthly = acc.yearlyMonthly ∧
     (salesCount env acc branch status d).monthlyData = acc.monthlyData ∧
     (salesCount env acc branch status d).dailyData = acc.dailyData) := by
  unfold salesCount
  rw [if_pos hin]
  dsimp only
  split_ifs <;>
    exact ⟨rfl, rfl, rfl, rfl, rfl, rfl, rfl, rfl, rfl, rfl, rfl⟩

/-- The revenue stage drops every row whose status is outside the
purchase-confirming allow-list. -/
theorem salesRevenueTail_skip (env : SalesEnv) (a1 : SalesAcc) (branch status : String)
    (price : ℚ) (d : ℤ)
    (h : status ≠ "Arrived & bought" ∧ status ≠ "Comeback & bought") :
    salesRevenueTail env a1 branch status price d = a1 := by
  unfold salesRevenueTail
  rw [if_pos h]

/-- Stage `stPrev` leaves the booking counter, the range sum and the two
half-range sums untouched. -/
theorem stPrev_frame (env : SalesEnv) (branch : String) (price : ℚ) (d : ℤ) (a : SalesAcc) :
    (stPrev env branch price d a).totalBookings = a.totalBookings ∧
    (stPrev env branch price d a).rangeSales = a.rangeSales ∧
    (stPrev env branch price d a).firstHalfSales = a.firstHalfSales ∧
    (stPrev env branch price d a).secondHalfSales = a.secondHalfSales := by
  unfold stPrev
  split_ifs <;> exact ⟨rfl, rfl, rfl, rfl⟩

/-- Stage `stDaily` leaves the booking counter, the range sum and the two
half-range sums untouched. -/
theorem stDaily_frame (env : SalesEnv) (branch : String) (price : ℚ) (d : ℤ) (a : SalesAcc) :
    (stDaily env branch price d a).totalBookings = a.totalBookings ∧
    (stDaily env branch price d a).rangeSales = a.rangeSales ∧
    (stDaily env branch price d a).firstHalfSales = a.firstHalfSales ∧
    (stDaily env branch price d a).secondHalfSales = a.secondHalfSales := by
  unfold stDaily
  split_ifs <;> exact ⟨rfl, rfl, rfl, rfl⟩

/-- Stage `stLastMonth` leaves the booking counter, the range sum and the two
half-range sums untouched. -/
theorem stLastMonth_frame (env : SalesEnv) (branch : String) (price : ℚ) (y : ℤ) (m : ℤ) (a : SalesAcc) :
    (stLastMonth env branch price y m a).totalBookings = a.totalBookings ∧
    (stLastMonth env branch price y m a).rangeSales = a.rangeSales ∧
    (stLastMonth env branch price y m a).firstHalfSales = a.firstHalfSales ∧
    (stLastMonth env branch price y m a).secondHalfSales = a.secondHalfSales := by
  unfold stLastMonth
  split_ifs <;> exact ⟨rfl, rfl, rfl, rfl⟩

/-- Stage `stYearly` leaves the booking counter, the range sum and the two
half-range sums untouched. -/
theorem stYearly_frame (env : SalesEnv) (price : ℚ) (y : ℤ) (m : ℤ) (a : SalesAcc) :
    (stYearly env price y m a).totalBookings = a.totalBookings ∧
    (stYearly env price y m a).rangeSales = a.rangeSales ∧
    (stYearly env price y m a).firstHalfSales = a.firstHalfSales ∧
    (stYearly env price y m a).secondHalfSales = a.secondHalfSales := by
  unfold stYearly
  split_ifs <;> exact ⟨rfl, rfl, rfl, rfl⟩

/-- Stage `stMonthly` leaves the booking counter, the range sum and the two
half-range sums untouched. -/
theorem stMonthly_frame (price : ℚ) (y : ℤ) (m : ℤ) (a : SalesAcc) :
    (stMonthly price y m a).totalBookings = a.totalBookings ∧
    (stMonthly price y m a).rangeSales = a.rangeSales ∧
    (stMonthly price y m a).firstHalfSales = a.firstHalfSales ∧
    (stMonthly price y m a).secondHalfSales = a.secondHalfSales := by
  unfold stMonthly
  exact ⟨rfl, rfl, rfl, rfl⟩

/-- Stage `stDailyData` leaves the booking counter, the range sum and the two
half-range sums untouched. -/
theorem stDailyData_frame (price : ℚ) (y : ℤ) (m : ℤ) (day : ℤ) (a : SalesAcc) :
    (stDailyData price y m day a).totalBookings = a.totalBookings ∧
    (stDailyData price y m day a).rangeSales = a.rangeSales ∧
    (stDailyData price y m day a).firstHalfSales = a.firstHalfSales ∧
    (stDailyData price y m day a).secondHalfSales = a.secondHalfSales := by
  unfold stDailyData
  exact ⟨rfl, rfl, rfl, rfl⟩

/-- Stage `stRange` preserves the booking counter and the half-range sums,
and adds the price to the range sum for an in-range day. -/
theorem stRange_frame (env : SalesEnv) (branch : String) (price : ℚ) (d : ℤ) (a : SalesAcc) :
    (stRange env branch price d a).totalBookings = a.totalBookings ∧
    (stRange env branch price d a).firstHalfSales = a.firstHalfSales ∧
    (stRange env branch price d a).secondHalfSales = a.secondHalfSales ∧
    (env.startDate ≤ d ∧ d ≤ env.endDate →
      (stRange env branch price d a).rangeSales.overall = a.rangeSales.overall + price) := by
  unfold stRange
  split_ifs with hin
  · exact ⟨rfl, rfl, rfl, fun _ => by simp [bumpSum]⟩
  · exact ⟨rfl, rfl, rfl, fun hc => absurd hc hin⟩

/-- Stage `stHalf` preserves the booking counter and the range sum, and adds
the price to the sum of the two half-range sums. -/
theorem stHalf_frame (env : SalesEnv) (branch : String) (price : ℚ) (d : ℤ) (a : SalesAcc) :
    (stHalf env branch price d a).totalBookings = a.totalBookings ∧
    (stHalf env branch price d a).rangeSales = a.rangeSales ∧
    (stHalf env branch price d a).firstHalfSales.overall
        + (stHalf env branch price d a).secondHalfSales.overall
        = a.firstHalfSales.overall + a.secondHalfSales.overall + price := by
  unfold stHalf
  split_ifs <;> refine ⟨rfl, rfl, ?_⟩ <;> simp [bumpSum] <;> ring

/-- The revenue stage never touches the booking counter. -/
theorem salesRevenueTail_totalBookings (env : SalesEnv) (a1 : SalesAcc)
    (branch status : String) (price : ℚ) (d : ℤ) :
    (salesRevenueTail env a1 branch status price d).totalBookings = a1.totalBookings := by
  unfold salesRevenueTail
  dsimp only
  split_ifs
  · rfl
  · rw [(stPrev_frame env branch price d _).1, (stRange_frame env branch price d a1).1]
  · rw [(stDailyData_frame price _ _ _ _).1, (stMonthly_frame price _ _ _).1,
      (stYearly_frame env price _ _ _).1, (stLastMonth_frame env branch price _ _ _).1,
      (stHalf_frame env branch price d _).1, (stDaily_frame env branch price d _).1,
      (stPrev_frame env branch price d _).1, (stRange_frame env branch price d a1).1]

/-- For an in-range allow-listed row the revenue stage adds the price to the
range sum and to exactly one of the two half-range sums. -/
theorem salesRevenueTail_allow (env : SalesEnv) (a1 : SalesAcc) (branch status : String)
    (price : ℚ) (d : ℤ)
    (h : ¬(status ≠ "Arrived & bought" ∧ status ≠ "Comeback & bought"))
    (hin1 : env.startDate ≤ d) (hin2 : d ≤ env.endDate) :
    (salesRevenueTail env a1 branch status price d).rangeSales.overall
        = a1.rangeSales.overall + price ∧
    (salesRevenueTail env a1 branch status price d).firstHalfSales.overall
        + (salesRevenueTail env a1 branch status price d).secondHalfSales.overall
        = a1.firstHalfSales.overall + a1.secondHalfSales.overall + price := by
  have hnotout : ¬(d < env.startDate ∨ env.endDate < d) := by omega
  unfold salesRevenueTail
  rw [if_neg h]
  dsimp only
  rw [if_neg hnotout]
  constructor
  · rw [(stDailyData_frame price _ _ _ _).2.1, (stMonthly_frame price _ _ _).2.1,
      (stYearly_frame env price _ _ _).2.1, (stLastMonth_frame env branch price _ _ _).2.1,
      (stHalf_frame env branch price d _).2.1, (stDaily_frame env branch price d _).2.1,
      (stPrev_frame env branch price d _).2.1]
    exact (stRange_frame env branch price d a1).2.2.2 ⟨hin1, hin2⟩
  · rw [(stDailyData_frame price _ _ _ _).2.2.1, (stDailyData_frame price _ _ _ _).2.2.2,
      (stMonthly_frame price _ _ _).2.2.1, (stMonthly_frame price _ _ _).2.2.2,
      (stYearly_frame env price _ _ _).2.2.1, (stYearly_frame env price _ _ _).2.2.2,
      (stLastMonth_frame env branch price _ _ _).2.2.1,
      (stLastMonth_frame env branch price _ _ _).2.2.2,
      (stHalf_frame env branch price d _).2.2]
    rw [(stDaily_frame env branch price d _).2.2.1, (stDaily_frame env branch price d _).2.2.2,
      (stPrev_frame env branch price d _).2.2.1, (stPrev_frame env branch price d _).2.2.2,
      (stRange_frame env branch price d a1).2.1, (stRange_frame env branch price d a1).2.2.1]

/-- C1 amended: for an in-range, branch-admitted, parseable booking row, the
revenue accumulators of the sales report change exactly when the status is
in the purchase-confirming allow-list (`Arrived & bought` or
`Comeback & bought`) — otherwise every revenue accumulator is untouched —
while the booking counter `totalBookings` is incremented for every such row
regardless of status, cancelled ones included. -/
theorem salesRevenue_allowList (env : SalesEnv) (acc : SalesAcc) (row : Row) (d : ℤ)
    (hsel : env.selectedBranch = "all" ∨ cell row 1 = env.selectedBranch)
    (hparse : env.parseBD (cell row 3) = some d)
    (hin1 : env.startDate ≤ d) (hin2 : d ≤ env.endDate) :
    ((cell row 2 ≠ "Arrived & bought" ∧ cell row 2 ≠ "Comeback & bought") →
      ((processRowSales env acc row).rangeSales = acc.rangeSales ∧
       (processRowSales env acc row).previousRangeSales = acc.previousRangeSales ∧
       (processRowSales env acc row).firstHalfSales = acc.firstHalfSales ∧
       (processRowSales env acc row).secondHalfSales = acc.secondHalfSales ∧
       (processRowSales env acc row).dailySales = acc.dailySales ∧
       (processRowSales env acc row).lastMonthSales = acc.lastMonthSales ∧
       (processRowSales env acc row).yearlyOverall = acc.yearlyOverall ∧
       (processRowSales env acc row).yearlyMonthly = acc.yearlyMonthly ∧
       (processRowSales env acc row).monthlyData = acc.monthlyData ∧
       (processRowSales env acc row).dailyData = acc.dailyData)) ∧
    (¬(cell row 2 ≠ "Arrived & bought" ∧ cell row 2 ≠ "Comeback & bought") →
      ((processRowSales env acc row).rangeSales.overall
          = acc.rangeSales.overall + parsePrice (cell row 12) ∧
       (processRowSales env acc row).firstHalfSales.overall
          + (processRowSales env acc row).secondHalfSales.overall
          = acc.firstHalfSales.overall + acc.secondHalfSales.overall
            + parsePrice (cell row 12))) ∧
    (processRowSales env acc row).totalBookings = acc.totalBookings + 1 := by
  have hrw : processRowSales env acc row
      = salesRevenueTail env (salesCount env acc (cell row 1) (cell row 2) d)
          (cell row 1) (cell row 2) (parsePrice (cell row 12)) d := by
    have hnotfilter : ¬(env.selectedBranch ≠ "all" ∧ cell row 1 ≠ env.selectedBranch) := by
      tauto
    unfold processRowSales
    dsimp only
    rw [if_neg hnotfilter, hparse]
  have hc := salesCount_fields env acc (cell row 1) (cell row 2) d ⟨hin1, hin2⟩
  rw [hrw]
  refine ⟨fun h => ?_, fun h => ?_, ?_⟩
  · rw [salesRevenueTail_skip env _ _ _ _ _ h]
    exact hc.2
  · have ht := salesRevenueTail_allow env (salesCount env acc (cell row 1) (cell row 2) d)
      (cell row 1) (cell row 2) (parsePrice (cell row 12)) d h hin1 hin2
    refine ⟨ht.1.trans (by rw [hc.2.1]), ?_⟩
    rw [ht.2, hc.2.2.2.1, hc.2.2.2.2.1]
  · rw [salesRevenueTail_totalBookings]
    exact hc.1

/-- Witness for the amended C1 theorem at concrete in-range rows with and
without a purchase-confirming status. -/
theorem salesRevenue_allowList_w :
    (processRowSales salesEnv0 initSalesAcc rowBoughtSale).totalBookings
        = initSalesAcc.totalBookings + 1 ∧
    (processRowSales salesEnv0 initSalesAcc rowBoughtSale).rangeSales.overall
        = initSalesAcc.rangeSales.overall + parsePrice (cell rowBoughtSale 12) ∧
    (processRowSales salesEnv0 initSalesAcc rowCancelledSale).rangeSales
        = initSalesAcc.rangeSales := by
  have h1 := salesRevenue_allowList salesEnv0 initSalesAcc rowBoughtSale 0
    (Or.inl rfl) (by decide) (by decide) (by decide)
  have h2 := salesRevenue_allowList salesEnv0 initSalesAcc rowCancelledSale 0
    (Or.inl rfl) (by decide) (by decide) (by decide)
  exact ⟨h1.2.2, (h1.2.1 (by decide)).1, (h2.1 (by decide)).1⟩
